import Mathlib

/-!
Verification of the HumanCell repository: a shallow embedding of its
SQLite-backed record stores (`src/storage.py`, `src/cloud_storage.py`) and of
the batch runner `src/tools/run_gemini.py` (record readers, prompt builder,
generation-client adapter, main loop), together with theorems settling the
spec's testable properties against the embedded code.

Machine-level conventions of the embedding:
- A SQLite table backed by a file is a Lean list of row structures plus the
  AUTOINCREMENT sequence counter; `ORDER BY id DESC` is an insertion sort by
  descending id; `LIMIT k` is `List.take` (a negative SQL LIMIT means
  "no limit", as in SQLite).
- Python exceptions are explicit `Except`/`Option` results; functions that
  mutate the database return the resulting store next to the `Except`, so
  that "no row is written on error" is a provable statement.
- Python values that flow through record dictionaries (str / int / None /
  dict) are the inductive `PyVal`; Python truthiness, `str()` coercion and
  `json.dumps` are embedded explicitly.
- `str.replace` (literal, leftmost, non-overlapping) is `pyReplace`, defined
  with explicit fuel so that it evaluates by kernel reduction; the fuel
  (length of the subject + 1) is an upper bound on the number of
  replacements for the non-empty patterns used by the code.
-/

/-! ## Python values -/

mutual
/-- A Python value as it appears in the records handled by the repository:
strings, integers, `None`, and string-keyed dictionaries. -/
inductive PyVal where
  | str (s : String)
  | int (n : Int)
  | none
  | dict (entries : PyEntries)

/-- Entries of a Python dictionary, in insertion order (keys unique). -/
inductive PyEntries where
  | nil
  | cons (key : String) (val : PyVal) (rest : PyEntries)
end

/-- Association-list lookup in dictionary entries: Python `k in d` / `d[k]`. -/
def PyEntries.lookup (key : String) : PyEntries → Option PyVal
  | .nil => Option.none
  | .cons k v rest => if k = key then some v else PyEntries.lookup key rest

/-- Python `d.get(key)` (missing key gives `None`). -/
def PyEntries.get (entries : PyEntries) (key : String) : PyVal :=
  match entries.lookup key with
  | some v => v
  | Option.none => PyVal.none

/-- Python `d.get(key, default)`. -/
def PyEntries.getD (entries : PyEntries) (key : String) (dflt : PyVal) : PyVal :=
  match entries.lookup key with
  | some v => v
  | Option.none => dflt

/-- Python truthiness of a value: `""`, `0`, `None` and `{}` are falsy. -/
def pyTruthy : PyVal → Bool
  | .str s => s ≠ ""
  | .int n => n ≠ 0
  | .none => false
  | .dict .nil => false
  | .dict (.cons _ _ _) => true

mutual
/-- Python `repr` restricted to the embedded values (used by `str()` on a
dictionary). String escaping is not modelled; the repository only passes
plain text through this path. -/
def pyRepr : PyVal → String
  | .str s => "'" ++ s ++ "'"
  | .int n => toString n
  | .none => "None"
  | .dict entries => "\x7b" ++ pyReprEntries entries ++ "\x7d"

/-- Comma-separated `repr` of dictionary entries. -/
def pyReprEntries : PyEntries → String
  | .nil => ""
  | .cons k v .nil => "'" ++ k ++ "': " ++ pyRepr v
  | .cons k v rest => "'" ++ k ++ "': " ++ pyRepr v ++ ", " ++ pyReprEntries rest
end

/-- Python `str()` coercion of a value. -/
def pyStr : PyVal → String
  | .str s => s
  | .int n => toString n
  | .none => "None"
  | .dict entries => pyRepr (.dict entries)

/-- JSON escaping of one character as `json.dumps` performs it for the
characters that occur in the repository's data (quote, backslash and common
control characters). -/
def jsonEscapeChar (c : Char) : String :=
  if c = '"' then "\\\""
  else if c = '\\' then "\\\\"
  else if c = '\n' then "\\n"
  else if c = '\t' then "\\t"
  else if c = '\r' then "\\r"
  else String.singleton c

/-- JSON escaping of a string body. -/
def jsonEscape (s : String) : String :=
  String.join (s.data.map jsonEscapeChar)

mutual
/-- Python `json.dumps` with its default separators `", "` and `": "`. -/
def jsonDumps : PyVal → String
  | .str s => "\"" ++ jsonEscape s ++ "\""
  | .int n => toString n
  | .none => "null"
  | .dict entries => "\x7b" ++ jsonDumpsEntries entries ++ "\x7d"

/-- Comma-separated `json.dumps` of dictionary entries. -/
def jsonDumpsEntries : PyEntries → String
  | .nil => ""
  | .cons k v .nil => "\"" ++ jsonEscape k ++ "\": " ++ jsonDumps v
  | .cons k v rest =>
      "\"" ++ jsonEscape k ++ "\": " ++ jsonDumps v ++ ", " ++ jsonDumpsEntries rest
end

/-! ## Literal string replacement (Python `str.replace`) -/

/-- Split a character list at the leftmost occurrence of `pat`, returning the
part before the match and the part after it; `Option.none` when `pat` does
not occur. -/
def findSplit (pat : List Char) : List Char → Option (List Char × List Char)
  | [] => Option.none
  | c :: cs =>
    if List.isPrefixOf pat (c :: cs) then some ([], (c :: cs).drop pat.length)
    else
      match findSplit pat cs with
      | some (pre, post) => some (c :: pre, post)
      | Option.none => Option.none

/-- Replace every (leftmost, non-overlapping) occurrence of `pat` by `rep`,
with explicit fuel bounding the number of replacements. -/
def replLoop (pat rep : List Char) : Nat → List Char → List Char
  | 0, s => s
  | Nat.succ fuel, s =>
    match findSplit pat s with
    | Option.none => s
    | some (pre, post) => pre ++ rep ++ replLoop pat rep fuel post

/-- Python `s.replace(pat, rep)` for the non-empty patterns used by the
repository: literal substring replacement, leftmost first, non-overlapping.
A subject of length `n` admits at most `n` matches of a non-empty pattern,
so fuel `n + 1` never runs out. -/
def pyReplace (s pat rep : String) : String :=
  String.mk (replLoop pat.data rep.data (s.data.length + 1) s.data)

/-! ## Record store of `src/storage.py` (table `inputs`) -/

/-- Python exceptions raised by the persistence helpers. -/
inductive PyErr where
  | valueError (msg : String)
  | typeError (msg : String)
  | fileNotFoundError (msg : String)
deriving DecidableEq

/-- One row of the `inputs` table created by `storage.init_db`:
`(id, text, source, processed, created_at)`. -/
structure InputRow where
  id : Int
  text : String
  source : String
  processed : Option String
  created_at : String
deriving DecidableEq

/-- The `inputs` table plus its AUTOINCREMENT sequence counter. A freshly
initialised database has no rows and sequence value 0, so the first assigned
id is 1. -/
structure InputStore where
  seq : Int
  rows : List InputRow
deriving DecidableEq

/-- The store produced by `storage.init_db` on a fresh file. -/
def emptyInputStore : InputStore := ⟨0, []⟩

/-- `storage.save_input(text, source='form', processed=None)`: raises
`ValueError` when `text is None` (before touching the database), otherwise
inserts one row and returns the assigned id. `now` stands for
`datetime.utcnow().isoformat()`. The resulting store is returned alongside
the outcome so that state changes are explicit. -/
def save_input (text : Option String) (source : String) (processed : Option String)
    (now : String) (s : InputStore) : InputStore × Except PyErr Int :=
  match text with
  | Option.none => (s, Except.error (PyErr.valueError "text must not be None"))
  | some t =>
    let newId := s.seq + 1
    ({ seq := newId, rows := s.rows ++ [⟨newId, t, source, processed, now⟩] },
     Except.ok newId)

/-- Insert a row into a list sorted by strictly descending key, keeping the
sort; models the placement performed by `ORDER BY key DESC`. -/
def insertDescBy (key : α → Int) (r : α) : List α → List α
  | [] => [r]
  | x :: xs => if key x ≤ key r then r :: x :: xs else x :: insertDescBy key r xs

/-- `ORDER BY key DESC` over the rows of a table. -/
def sortByKeyDesc (key : α → Int) (l : List α) : List α :=
  l.foldr (insertDescBy key) []

/-- SQL `LIMIT k` applied to an ordered result set: a negative `k` means no
limit (SQLite semantics), otherwise the first `k` rows. -/
def sqlLimitRows (k : Int) (rows : List α) : List α :=
  if k < 0 then rows else rows.take k.toNat

/-- `storage.get_all(limit)`: `SELECT ... ORDER BY id DESC`, with the
`LIMIT` clause added only when `limit` is truthy — Python `if limit:` is
false both for `None` and for `0`, so `limit=0` returns every row. -/
def get_all (s : InputStore) (limit : Option Int) : List InputRow :=
  let sorted := sortByKeyDesc (fun r => r.id) s.rows
  match limit with
  | some k => if k = 0 then sorted else sqlLimitRows k sorted
  | Option.none => sorted

/-! ## Record store of `src/cloud_storage.py` (table `cloud_strings`) -/

/-- One row of the `cloud_strings` table: `(id, text, created_at)`. -/
structure CloudRow where
  id : Int
  text : String
  created_at : String
deriving DecidableEq

/-- The `cloud_strings` table plus its AUTOINCREMENT sequence counter. -/
structure CloudStore where
  seq : Int
  rows : List CloudRow
deriving DecidableEq

/-- A freshly created `cloud_data.db`. -/
def emptyCloudStore : CloudStore := ⟨0, []⟩

/-- `cloud_storage.store_txt_file_in_cloud(txt_file_path)`: `Path(None)`
raises `TypeError`; a missing file raises `FileNotFoundError`; an empty file
raises `ValueError("Text file is empty.")`; otherwise the file's contents are
inserted as one row and the assigned id returned. `fs` maps a path to the
contents of the file at that path (if any), and `now` stands for the
`CURRENT_TIMESTAMP` default of the `created_at` column. -/
def store_txt_file_in_cloud (fs : String → Option String) (txt_file_path : Option String)
    (now : String) (s : CloudStore) : CloudStore × Except PyErr Int :=
  match txt_file_path with
  | Option.none =>
      (s, Except.error (PyErr.typeError "argument should be a str or an os.PathLike object"))
  | some p =>
    match fs p with
    | Option.none => (s, Except.error (PyErr.fileNotFoundError ("File not found: " ++ p)))
    | some text =>
      if text = "" then (s, Except.error (PyErr.valueError "Text file is empty."))
      else
        let newId := s.seq + 1
        ({ seq := newId, rows := s.rows ++ [⟨newId, text, now⟩] }, Except.ok newId)

/-! ## Batch runner `src/tools/run_gemini.py` -/

namespace RunGemini

/-- A record as the batch runner passes it around: a Python dictionary. -/
abbrev PyDict := PyEntries

/-- `read_cloud_strings(limit)`: returns `[]` when `cloud_data.db` does not
exist; otherwise `SELECT id, text, created_at FROM cloud_strings ORDER BY id
DESC`, with a `LIMIT` clause only when `limit` is truthy (so `limit=0` means
no limit), each row repackaged as `{"id": ..., "text": ..., "ts": ...}`.
The database file is the `db : Option _` argument, `Option.none` standing
for a missing file. -/
def read_cloud_strings (db : Option (List CloudRow)) (limit : Option Int) : List PyDict :=
  match db with
  | Option.none => []
  | some rows =>
    let sorted := sortByKeyDesc (fun r => r.id) rows
    let limited :=
      match limit with
      | some k => if k = 0 then sorted else sqlLimitRows k sorted
      | Option.none => sorted
    limited.map (fun r =>
      .cons "id" (PyVal.int r.id) (.cons "text" (PyVal.str r.text)
        (.cons "ts" (PyVal.str r.created_at) .nil)))

/-- One row of the `data/inputs.sqlite` table read by `read_inputs`:
`(id, route, received, result, ts)`; the non-id columns may hold SQL NULL or
strings, so they are `PyVal`s. -/
structure InputsSqliteRow where
  id : Int
  route : PyVal
  received : PyVal
  result : PyVal
  ts : PyVal

/-- `read_inputs(limit)`: returns `[]` when `data/inputs.sqlite` does not
exist; otherwise reads rows most-recent-first (same truthy `limit` handling
as `read_cloud_strings`) and JSON-decodes a truthy `received` column,
keeping the raw value when decoding raises. `decoder` embeds `json.loads`
(`Option.none` = the parse raised). -/
def read_inputs (decoder : String → Option PyVal) (db : Option (List InputsSqliteRow))
    (limit : Option Int) : List PyDict :=
  match db with
  | Option.none => []
  | some rows =>
    let sorted := sortByKeyDesc (fun r => r.id) rows
    let limited :=
      match limit with
      | some k => if k = 0 then sorted else sqlLimitRows k sorted
      | Option.none => sorted
    limited.map (fun r =>
      let received :=
        match r.received with
        | PyVal.str s =>
          if s ≠ "" then
            match decoder s with
            | some v => v
            | Option.none => PyVal.str s
          else PyVal.str s
        | v => v
      .cons "id" (PyVal.int r.id) (.cons "route" r.route (.cons "received" received
        (.cons "result" r.result (.cons "ts" r.ts .nil)))))

/-- The text-resolution step of `build_prompt`: a direct `text` field; else,
for a `received` field that is a dict, `rec.get("freeText") or
rec.get("text") or json.dumps(rec)` (Python `or`, i.e. first truthy); else
`str(rec)`; else `""`. -/
def resolve_text (record : PyDict) : PyVal :=
  match record.lookup "text" with
  | some v => v
  | Option.none =>
    match record.lookup "received" with
    | some received =>
      match received with
      | PyVal.dict entries =>
        let a := entries.get "freeText"
        let b := entries.get "text"
        if pyTruthy a then a
        else if pyTruthy b then b
        else PyVal.str (jsonDumps (PyVal.dict entries))
      | v => PyVal.str (pyStr v)
    | Option.none => PyVal.str ""

/-- `build_prompt(template, record)`: resolves a text value, then replaces
`{text}` with `text or ""`, and `{id}`, `{route}`, `{ts}` with
`str(record.get(k, ""))`, and `{received}` with
`json.dumps(record.get("received", {}))`. The value given to the `{text}`
replacement is not passed through `str()`: when the resolved value is truthy
but not a string, Python's `str.replace` raises `TypeError`, embedded as
`Option.none`. -/
def build_prompt (template : String) (record : PyDict) : Option String :=
  let text := resolve_text record
  let textVal := if pyTruthy text then text else PyVal.str ""
  match textVal with
  | PyVal.str s =>
    let filled := pyReplace template "{text}" s
    let filled := pyReplace filled "{id}" (pyStr (record.getD "id" (PyVal.str "")))
    let filled := pyReplace filled "{route}" (pyStr (record.getD "route" (PyVal.str "")))
    let filled := pyReplace filled "{ts}" (pyStr (record.getD "ts" (PyVal.str "")))
    let filled :=
      pyReplace filled "{received}" (jsonDumps (record.getD "received" (PyVal.dict .nil)))
    some filled
  | _ => Option.none

/-- A normalized generation response: the extracted `text` and the `repr`
of the raw client response. -/
structure GenResp where
  text : String
  raw : String

/-- The runtime environment probed by `call_gemini`: which client libraries
are importable, which capabilities they expose, and what each client
call returns for a given prompt (`Except.error` = the call raised). -/
structure GenEnv where
  genai_importable : Bool
  genai_has_generate_text : Bool
  genai_generate : String → Except String GenResp
  genai_has_client : Bool
  genai_client_generate : String → Except String GenResp
  ggenai_importable : Bool
  ggenai_has_generate_text : Bool
  ggenai_generate : String → Except String GenResp

/-- How a call to `call_gemini` terminates, seen from its caller: a normal
`{model, text, raw}` dictionary, an `ImportError`, or any other exception. -/
inductive CallOutcome where
  | ok (model text raw : String)
  | importError (msg : String)
  | genericError (msg : String)
deriving DecidableEq

/-- The message of the `ImportError` raised when no client is found. -/
def unavailableMsg : String :=
  "No supported Google Generative AI client found. Install the official package (e.g. pip install google-generative-ai) and set GOOGLE_API_KEY, or run without --call to only print prompts."

/-- `call_gemini(prompt, model)`: first probe `google.generativeai` (its
`generate_text`, else its `Client`), then `google.genai`; each probe's body
runs inside `try/except Exception`, so an exception raised by a client call
is swallowed and the probing continues; when no probe returns, the function
raises the `ImportError` with the installation hint. Configuration
(`genai.configure`) failures are tolerated inside their own `try/except` and
do not affect the outcome. -/
def call_gemini (env : GenEnv) (prompt : String) (model : String) : CallOutcome :=
  let attempt1 : Option CallOutcome :=
    if env.genai_importable then
      if env.genai_has_generate_text then
        match env.genai_generate prompt with
        | Except.ok r => some (CallOutcome.ok model r.text r.raw)
        | Except.error _ => Option.none
      else if env.genai_has_client then
        match env.genai_client_generate prompt with
        | Except.ok r => some (CallOutcome.ok model r.text r.raw)
        | Except.error _ => Option.none
      else Option.none
    else Option.none
  match attempt1 with
  | some out => out
  | Option.none =>
    let attempt2 : Option CallOutcome :=
      if env.ggenai_importable then
        if env.ggenai_has_generate_text then
          match env.ggenai_generate prompt with
          | Except.ok r => some (CallOutcome.ok model r.text r.raw)
          | Except.error _ => Option.none
        else Option.none
      else Option.none
    match attempt2 with
    | some out => out
    | Option.none => CallOutcome.importError unavailableMsg

/-- Which data source `--source` selected. -/
inductive Source where
  | cloud
  | inputs
deriving DecidableEq

/-- The parsed command line of the batch runner (the `--template-file`
indirection is resolved into `template`). -/
structure Args where
  source : Source
  limit : Int
  template : Option String
  callFlag : Bool
  model : String

/-- The default prompt template of `main`. -/
def defaultTemplate : String :=
  "Summarize the following text:\n\n{text}\n\nSummary:"

/-- `args.template or default`: Python `or`, so an empty template string
also selects the default. -/
def resolveTemplate (template : Option String) : String :=
  match template with
  | some t => if t = "" then defaultTemplate else t
  | Option.none => defaultTemplate

/-- One JSON line appended to `data/gemini_results.jsonl`: the dictionary
`{"record": ..., "prompt": ..., "response": None}` with `response` filled on
a successful call and `error` added when the call raised. -/
structure ResultLine where
  record : PyDict
  prompt : String
  response : Option (String × String × String)
  error : Option String

/-- The loop body of `main` for one record: build the prompt, then (when
`--call` was given) attempt the generation call, recording an `ImportError`
or any other exception under `error` instead of propagating it. Returns
`Option.none` when `build_prompt` itself raises, which in the source would
abort the whole run. -/
def process_record (tmpl : String) (env : GenEnv) (callFlag : Bool) (model : String)
    (record : PyDict) : Option ResultLine :=
  (build_prompt tmpl record).map fun prompt =>
    if callFlag then
      match call_gemini env prompt model with
      | CallOutcome.ok m t r =>
          { record := record, prompt := prompt, response := some (m, t, r), error := Option.none }
      | CallOutcome.importError msg =>
          { record := record, prompt := prompt, response := Option.none, error := some msg }
      | CallOutcome.genericError msg =>
          { record := record, prompt := prompt, response := Option.none, error := some msg }
    else
      { record := record, prompt := prompt, response := Option.none, error := Option.none }

/-- `main(argv)`: read up to `limit` records from the selected source; when
none are found, report and exit 0 without touching the results log;
otherwise process every record and append one line each to the results log.
The value is `(exit status, appended lines)`; `Option.none` embeds an
unhandled exception escaping `main` (only `build_prompt`'s `TypeError` can
do so in the embedded fragment). -/
def main (args : Args) (cloudDB : Option (List CloudRow))
    (inputsDB : Option (List InputsSqliteRow)) (decoder : String → Option PyVal)
    (env : GenEnv) : Option (Int × List ResultLine) :=
  let tmpl := resolveTemplate args.template
  let records :=
    match args.source with
    | Source.cloud => read_cloud_strings cloudDB (some args.limit)
    | Source.inputs => read_inputs decoder inputsDB (some args.limit)
  if records.isEmpty then some (0, [])
  else (records.mapM (process_record tmpl env args.callFlag args.model)).map
    (fun lines => (0, lines))

end RunGemini

/-! ## Helper definitions used by the theorems -/

/-- The fields-to-strings reading of the spec sentence on placeholder
substitution: the string-coerced value of a field, a missing field
substituting the empty string. -/
def strCoercedField (record : RunGemini.PyDict) (key : String) : String :=
  match record.lookup key with
  | Option.none => ""
  | some v => pyStr v

/-- A sequence of appends through `storage.save_input`, collecting the ids
of the successful inserts. -/
def save_many (source : String) (processed : Option String) (now : String) :
    List String → InputStore → InputStore × List Int
  | [], s => (s, [])
  | t :: ts, s =>
    let step := save_input (some t) source processed now s
    let rest := save_many source processed now ts step.1
    (rest.1,
     (match step.2 with
      | Except.ok i => [i]
      | Except.error _ => []) ++ rest.2)

/-- The ids a run of `save_many` assigns, starting after sequence value `seq`. -/
def idsFrom (seq : Int) : List String → List Int
  | [] => []
  | _ :: ts => (seq + 1) :: idsFrom (seq + 1) ts

/-- The rows a run of `save_many` inserts, starting after sequence value `seq`. -/
def rowsFrom (source : String) (processed : Option String) (now : String) (seq : Int) :
    List String → List InputRow
  | [] => []
  | t :: ts => ⟨seq + 1, t, source, processed, now⟩ :: rowsFrom source processed now (seq + 1) ts

/-- Well-formedness of a store as SQLite maintains it: rows are in strictly
increasing id order and no id exceeds the sequence counter. -/
def store_wf (s : InputStore) : Prop :=
  s.rows.Pairwise (fun a b => a.id < b.id) ∧ ∀ r ∈ s.rows, r.id ≤ s.seq

/-- A record as `read_cloud_strings` shapes it. -/
def cloudRec (i : Int) (t ts : String) : RunGemini.PyDict :=
  .cons "id" (PyVal.int i) (.cons "text" (PyVal.str t) (.cons "ts" (PyVal.str ts) .nil))

/-! ## Sorting lemmas -/

lemma get_all_none (s : InputStore) :
    get_all s Option.none = sortByKeyDesc (fun r => r.id) s.rows := rfl

lemma insertDescBy_of_forall_lt (key : α → Int) (r : α) :
    ∀ l : List α, (∀ x ∈ l, key r < key x) → insertDescBy key r l = l ++ [r] := by
  intro l
  induction l with
  | nil => intro _; rfl
  | cons x xs ih =>
    intro h
    have hx : ¬ key x ≤ key r := by
      have := h x (by simp)
      omega
    simp only [insertDescBy, if_neg hx]
    rw [ih (fun y hy => h y (by simp [hy]))]
    simp

lemma sortByKeyDesc_eq_reverse (key : α → Int) :
    ∀ l : List α, l.Pairwise (fun a b => key a < key b) → sortByKeyDesc key l = l.reverse := by
  intro l
  induction l with
  | nil => intro _; rfl
  | cons a l ih =>
    intro h
    rw [List.pairwise_cons] at h
    show insertDescBy key a (sortByKeyDesc key l) = (a :: l).reverse
    rw [ih h.2, insertDescBy_of_forall_lt key a l.reverse
      (fun x hx => h.1 x (by simpa using hx))]
    simp

lemma insertDescBy_length (key : α → Int) (r : α) :
    ∀ l : List α, (insertDescBy key r l).length = l.length + 1 := by
  intro l
  induction l with
  | nil => rfl
  | cons x xs ih =>
    by_cases hx : key x ≤ key r <;> simp [insertDescBy, hx, ih]

lemma sortByKeyDesc_length (key : α → Int) :
    ∀ l : List α, (sortByKeyDesc key l).length = l.length := by
  intro l
  induction l with
  | nil => rfl
  | cons x xs ih =>
    show (insertDescBy key x (sortByKeyDesc key xs)).length = xs.length + 1
    rw [insertDescBy_length, ih]

/-! ## Lemmas about sequences of appends -/

lemma save_many_eq (source : String) (processed : Option String) (now : String) :
    ∀ (texts : List String) (s : InputStore),
      save_many source processed now texts s =
        (⟨s.seq + texts.length, s.rows ++ rowsFrom source processed now s.seq texts⟩,
         idsFrom s.seq texts) := by
  intro texts
  induction texts with
  | nil => intro s; simp [save_many, idsFrom, rowsFrom]
  | cons t ts ih =>
    intro s
    simp only [save_many, save_input, ih, idsFrom, rowsFrom, Prod.mk.injEq,
      InputStore.mk.injEq, List.length_cons, List.append_assoc, List.singleton_append,
      List.cons_append]
    refine ⟨⟨?_, rfl⟩, rfl⟩
    push_cast
    ring

lemma idsFrom_mem : ∀ (texts : List String) (q i : Int), i ∈ idsFrom q texts → q < i := by
  intro texts
  induction texts with
  | nil => intro q i h; simp [idsFrom] at h
  | cons t ts ih =>
    intro q i h
    simp only [idsFrom, List.mem_cons] at h
    rcases h with h | h
    · omega
    · have := ih (q + 1) i h
      omega

lemma idsFrom_chain : ∀ (texts : List String) (q : Int), List.Chain' (· < ·) (idsFrom q texts) := by
  intro texts
  induction texts with
  | nil => intro q; simp [idsFrom]
  | cons t ts ih =>
    intro q
    simp only [idsFrom]
    refine List.chain'_cons'.mpr ⟨?_, ih (q + 1)⟩
    intro y hy
    cases ts with
    | nil => simp [idsFrom] at hy
    | cons t' ts' =>
      simp only [idsFrom, List.head?_cons, Option.mem_def, Option.some.injEq] at hy
      omega

lemma rowsFrom_mem (source : String) (processed : Option String) (now : String) :
    ∀ (texts : List String) (q : Int) (r : InputRow),
      r ∈ rowsFrom source processed now q texts → q < r.id ∧ r.id ≤ q + texts.length := by
  intro texts
  induction texts with
  | nil => intro q r h; simp [rowsFrom] at h
  | cons t ts ih =>
    intro q r h
    simp only [rowsFrom, List.mem_cons] at h
    rcases h with h | h
    · subst h
      simp only [List.length_cons]
      constructor
      · omega
      · push_cast
        omega
    · have := ih (q + 1) r h
      simp only [List.length_cons]
      push_cast at this ⊢
      omega

lemma rowsFrom_pairwise (source : String) (processed : Option String) (now : String) :
    ∀ (texts : List String) (q : Int),
      (rowsFrom source processed now q texts).Pairwise (fun a b => a.id < b.id) := by
  intro texts
  induction texts with
  | nil => intro q; simp [rowsFrom]
  | cons t ts ih =>
    intro q
    simp only [rowsFrom]
    refine List.pairwise_cons.mpr ⟨?_, ih (q + 1)⟩
    intro r hr
    have := (rowsFrom_mem source processed now ts (q + 1) r hr).1
    show q + 1 < r.id
    omega

/-! ## Claims about the record stores -/

/-- Counterexample to claim C1: in the `inputs` store, `save_input("")`
does not fail — it succeeds with id 1 and writes one row to the (initially
empty) store. -/
theorem c1_empty_string_accepted :
    (save_input (some "") "form" Option.none "ts" emptyInputStore).2 = Except.ok 1 ∧
    (save_input (some "") "form" Option.none "ts" emptyInputStore).1.rows =
      [⟨1, "", "form", Option.none, "ts"⟩] :=
  ⟨rfl, rfl⟩

/-- Claim C1, amended: `append(None)` fails with a validation error in the
`inputs` store and with a `TypeError` in the cloud store, in both cases
writing nothing; the cloud store also rejects empty text with a validation
error and writes nothing; but the `inputs` store accepts the empty string
and writes a row for it. -/
theorem c1_append_validation (s : InputStore) (cs : CloudStore) (source : String)
    (processed : Option String) (now : String) (fs : String → Option String) (p : String)
    (hfs : fs p = some "") :
    ((save_input Option.none source processed now s).2 =
        Except.error (PyErr.valueError "text must not be None") ∧
      (save_input Option.none source processed now s).1 = s) ∧
    ((store_txt_file_in_cloud fs (some p) now cs).2 =
        Except.error (PyErr.valueError "Text file is empty.") ∧
      (store_txt_file_in_cloud fs (some p) now cs).1 = cs) ∧
    ((store_txt_file_in_cloud fs Option.none now cs).2 =
        Except.error (PyErr.typeError "argument should be a str or an os.PathLike object") ∧
      (store_txt_file_in_cloud fs Option.none now cs).1 = cs) ∧
    (save_input (some "") source processed now s).1.rows =
      s.rows ++ [⟨s.seq + 1, "", source, processed, now⟩] := by
  refine ⟨⟨rfl, rfl⟩, ?_, ⟨rfl, rfl⟩, rfl⟩
  simp [store_txt_file_in_cloud, hfs]

/-- Witness for `c1_append_validation` at a concrete store and filesystem. -/
theorem c1_append_validation_witness :
    (store_txt_file_in_cloud (fun _ => some "") (some "f.txt") "ts" emptyCloudStore).2 =
      Except.error (PyErr.valueError "Text file is empty.") :=
  (c1_append_validation emptyInputStore emptyCloudStore "form" Option.none "ts"
    (fun _ => some "") "f.txt" rfl).2.1.1

/-- A one-row store used to exhibit the `limit=0` behaviour of `get_all`. -/
def oneRowStore : InputStore := ⟨1, [⟨1, "a", "form", Option.none, "ts"⟩]⟩

/-- Counterexample to claim C3: Python `if limit:` is false for `0`, so
`get_all(limit=0)` omits the `LIMIT` clause and returns all rows — on a
one-row store it returns 1 record where the claim demands
`min(0, 1) = 0`. -/
theorem c3_limit_zero_returns_all :
    (get_all oneRowStore (some 0)).length = 1 ∧
    min ((0 : Int).toNat) oneRowStore.rows.length = 0 :=
  ⟨rfl, rfl⟩

/-- Claim C3, amended: for every positive `k`, `get_all(limit=k)` returns
exactly `min(k, n)` records and is the length-`k` prefix of the full
most-recent-first listing; `limit=0` is treated as "no limit" and returns
all `n` records. -/
theorem c3_limit_min (s : InputStore) (k : Int) (hk : 0 < k) :
    ((get_all s (some k)).length = min k.toNat s.rows.length ∧
      get_all s (some k) = (get_all s Option.none).take k.toNat) ∧
    (get_all s (some 0)).length = s.rows.length := by
  have hk0 : ¬ k = 0 := by omega
  have hkneg : ¬ k < 0 := by omega
  refine ⟨⟨?_, ?_⟩, ?_⟩
  · simp [get_all, sqlLimitRows, hk0, hkneg, List.length_take, sortByKeyDesc_length]
  · simp [get_all, sqlLimitRows, hk0, hkneg]
  · simp [get_all, sortByKeyDesc_length]

/-- Witness for `c3_limit_min` on a concrete store and limit. -/
theorem c3_limit_min_witness :
    ((get_all oneRowStore (some 2)).length = min ((2 : Int).toNat) oneRowStore.rows.length ∧
      get_all oneRowStore (some 2) = (get_all oneRowStore Option.none).take ((2 : Int).toNat) ∧
      (get_all oneRowStore (some 0)).length = oneRowStore.rows.length) ∧
    (0 : Int) < 2 := by
  have h := c3_limit_min oneRowStore 2 (by decide)
  exact ⟨⟨h.1.1, h.1.2, h.2⟩, by decide⟩

/-- Claim C6: appending a non-empty string `t` to an empty store and then
listing returns exactly one record, whose text is `t` and whose id is a
positive integer (namely the id `save_input` returned). -/
theorem c6_append_then_list (t source : String) (processed : Option String) (now : String)
    (h : t ≠ "") :
    ∃ row : InputRow,
      get_all (save_input (some t) source processed now emptyInputStore).1 Option.none = [row] ∧
      row.text = t ∧ 0 < row.id ∧
      (save_input (some t) source processed now emptyInputStore).2 = Except.ok row.id :=
  ⟨⟨1, t, source, processed, now⟩, rfl, rfl, by norm_num, rfl⟩

/-- Witness for `c6_append_then_list` at `t = "a"`. -/
theorem c6_append_then_list_witness :
    ∃ row : InputRow,
      get_all (save_input (some "a") "form" Option.none "ts" emptyInputStore).1 Option.none =
        [row] ∧
      row.text = "a" ∧ 0 < row.id ∧
      (save_input (some "a") "form" Option.none "ts" emptyInputStore).2 = Except.ok row.id :=
  c6_append_then_list "a" "form" Option.none "ts" (by decide)

/-- Claim C7: a sequence of successful appends on a well-formed store
assigns strictly increasing ids, in order; the reverse-order listing is
exactly the reversed insertion order; and no operation updates or deletes a
record — `save_many` only ever extends the row list, `save_input` always
leaves the existing rows as a prefix, and the resulting store is again
well-formed. -/
theorem c7_append_only (texts : List String) (source : String) (processed : Option String)
    (now : String) (s : InputStore) (hwf : store_wf s) :
    List.Chain' (· < ·) (save_many source processed now texts s).2 ∧
    (save_many source processed now texts s).1.rows =
      s.rows ++ rowsFrom source processed now s.seq texts ∧
    get_all (save_many source processed now texts s).1 Option.none =
      (save_many source processed now texts s).1.rows.reverse ∧
    (∀ text : Option String, ∃ added,
      (save_input text source processed now s).1.rows = s.rows ++ added) ∧
    store_wf (save_many source processed now texts s).1 := by
  obtain ⟨hpair, hle⟩ := hwf
  rw [save_many_eq]
  have hrows :
      (s.rows ++ rowsFrom source processed now s.seq texts).Pairwise
        (fun a b => a.id < b.id) := by
    rw [List.pairwise_append]
    refine ⟨hpair, rowsFrom_pairwise source processed now texts s.seq, ?_⟩
    intro a ha b hb
    have h1 := hle a ha
    have h2 := (rowsFrom_mem source processed now texts s.seq b hb).1
    omega
  refine ⟨idsFrom_chain texts s.seq, rfl, ?_, ?_, ?_⟩
  · rw [get_all_none]
    exact sortByKeyDesc_eq_reverse (fun r : InputRow => r.id) _ hrows
  · intro text
    cases text with
    | none => exact ⟨[], by simp [save_input]⟩
    | some t => exact ⟨_, rfl⟩
  · refine ⟨hrows, ?_⟩
    intro r hr
    simp only [List.mem_append] at hr
    rcases hr with hr | hr
    · have := hle r hr
      have hlen : (0 : Int) ≤ texts.length := by positivity
      simp only
      omega
    · have := (rowsFrom_mem source processed now texts s.seq r hr).2
      simp only
      omega

/-- Witness for `c7_append_only`: two appends on the empty store. -/
theorem c7_append_only_witness :
    List.Chain' (· < ·) (save_many "form" Option.none "ts" ["a", "b"] emptyInputStore).2 ∧
    (save_many "form" Option.none "ts" ["a", "b"] emptyInputStore).1.rows =
      emptyInputStore.rows ++ rowsFrom "form" Option.none "ts" emptyInputStore.seq ["a", "b"] ∧
    get_all (save_many "form" Option.none "ts" ["a", "b"] emptyInputStore).1 Option.none =
      (save_many "form" Option.none "ts" ["a", "b"] emptyInputStore).1.rows.reverse ∧
    (∀ text : Option String, ∃ added,
      (save_input text "form" Option.none "ts" emptyInputStore).1.rows =
        emptyInputStore.rows ++ added) ∧
    store_wf (save_many "form" Option.none "ts" ["a", "b"] emptyInputStore).1 :=
  c7_append_only ["a", "b"] "form" Option.none "ts" emptyInputStore
    ⟨List.Pairwise.nil, by simp [emptyInputStore]⟩

/-! ## Claims about the generation-client adapter -/

/-- An environment in which `google.generativeai` imports fine and exposes
`generate_text`, but every call raises (a network failure), and no alternate
client is importable. -/
def networkFailEnv : RunGemini.GenEnv where
  genai_importable := true
  genai_has_generate_text := true
  genai_generate := fun _ => Except.error "network timeout"
  genai_has_client := false
  genai_client_generate := fun _ => Except.error "unused"
  ggenai_importable := false
  ggenai_has_generate_text := false
  ggenai_generate := fun _ => Except.error "unused"

/-- An environment in which no client library is importable at all. -/
def noClientEnv : RunGemini.GenEnv where
  genai_importable := false
  genai_has_generate_text := false
  genai_generate := fun _ => Except.error "unused"
  genai_has_client := false
  genai_client_generate := fun _ => Except.error "unused"
  ggenai_importable := false
  ggenai_has_generate_text := false
  ggenai_generate := fun _ => Except.error "unused"

/-- Counterexample to claim C2: with a client library importable whose call
raises a network error, `call_gemini` still fails with the "capability
unavailable" `ImportError` — the network failure does not propagate as a
generic failure, because each probe's `try/except Exception` swallows it. -/
theorem c2_network_error_becomes_unavailable :
    networkFailEnv.genai_importable = true ∧
    RunGemini.call_gemini networkFailEnv "p" "m" =
      RunGemini.CallOutcome.importError RunGemini.unavailableMsg :=
  ⟨rfl, rfl⟩

/-- Claim C2, amended: `call_gemini` either returns a normalized result or
fails with the "capability unavailable" `ImportError` (carrying the install
hint); it never propagates a generic failure, because every exception raised
inside a probe is swallowed and probing falls through to the final
`ImportError`. In particular the `ImportError` is raised whenever no probe
returns — including when no client library is importable at all. -/
theorem c2_unavailable_semantics (env : RunGemini.GenEnv) (prompt model : String) :
    ((∃ t r, RunGemini.call_gemini env prompt model = RunGemini.CallOutcome.ok model t r) ∨
      RunGemini.call_gemini env prompt model =
        RunGemini.CallOutcome.importError RunGemini.unavailableMsg) ∧
    (∀ msg, RunGemini.call_gemini env prompt model ≠
      RunGemini.CallOutcome.genericError msg) ∧
    ((env.genai_importable = false ∧ env.ggenai_importable = false) →
      RunGemini.call_gemini env prompt model =
        RunGemini.CallOutcome.importError RunGemini.unavailableMsg) := by
  cases hga : env.genai_importable <;>
    cases hgt : env.genai_has_generate_text <;>
      cases hgc : env.genai_has_client <;>
        cases hgg : env.ggenai_importable <;>
          cases hggt : env.ggenai_has_generate_text <;>
            cases hr1 : env.genai_generate prompt <;>
              cases hr2 : env.genai_client_generate prompt <;>
                cases hr3 : env.ggenai_generate prompt <;>
                  simp [RunGemini.call_gemini, hga, hgt, hgc, hgg, hggt, hr1, hr2, hr3]

/-- Witness for `c2_unavailable_semantics`: with no client importable, the
call indeed fails with the "unavailable" `ImportError`. -/
theorem c2_unavailable_semantics_witness :
    RunGemini.call_gemini noClientEnv "p" "m" =
      RunGemini.CallOutcome.importError RunGemini.unavailableMsg :=
  (c2_unavailable_semantics noClientEnv "p" "m").2.2 ⟨rfl, rfl⟩

/-! ## Claims about the prompt builder -/

/-- Counterexample to claim C4: the `received` fallback chain uses Python
`or` (first truthy value), not first present key. With
`received = {"freeText": "", "text": "x"}` the key `freeText` is present, so
the claim demands the result `""`; the code skips the falsy `freeText` and
returns `"x"`. -/
theorem c4_truthiness_not_presence :
    RunGemini.build_prompt "{text}"
        (.cons "received"
          (PyVal.dict (.cons "freeText" (PyVal.str "") (.cons "text" (PyVal.str "x") .nil)))
          .nil) =
      some "x" ∧
    some "x" ≠ some "" :=
  ⟨rfl, by decide⟩

/-- Claim C4, amended: for a record with no `text` field whose `received`
field is a mapping, the prompt builder resolves the text value as the first
truthy of the mapping's `freeText` value, then its `text` value, else a JSON
serialization of the whole mapping (a present but falsy value, such as the
empty string, is skipped); in particular
`build_prompt("{text}", {"received": {"freeText": "hi"}})` returns `"hi"`. -/
theorem c4_received_fallback_chain :
    (RunGemini.build_prompt "{text}"
        (.cons "received" (PyVal.dict (.cons "freeText" (PyVal.str "hi") .nil)) .nil) =
      some "hi") ∧
    (∀ (entries : PyEntries) (v : PyVal),
      entries.get "freeText" = v → pyTruthy v = true →
      RunGemini.resolve_text (.cons "received" (PyVal.dict entries) .nil) = v) ∧
    (∀ (entries : PyEntries) (v : PyVal),
      pyTruthy (entries.get "freeText") = false →
      entries.get "text" = v → pyTruthy v = true →
      RunGemini.resolve_text (.cons "received" (PyVal.dict entries) .nil) = v) ∧
    (∀ entries : PyEntries,
      pyTruthy (entries.get "freeText") = false →
      pyTruthy (entries.get "text") = false →
      RunGemini.resolve_text (.cons "received" (PyVal.dict entries) .nil) =
        PyVal.str (jsonDumps (PyVal.dict entries))) := by
  refine ⟨rfl, ?_, ?_, ?_⟩
  · intro entries v hv htruthy
    subst hv
    simp [RunGemini.resolve_text, PyEntries.lookup, htruthy]
  · intro entries v hfree hv htruthy
    subst hv
    simp [RunGemini.resolve_text, PyEntries.lookup, hfree, htruthy]
  · intro entries hfree htext
    simp [RunGemini.resolve_text, PyEntries.lookup, hfree, htext]

/-- Witness for `c4_received_fallback_chain`: the truthy-`freeText` branch
at a concrete mapping. -/
theorem c4_received_fallback_chain_witness :
    RunGemini.resolve_text
        (.cons "received" (PyVal.dict (.cons "freeText" (PyVal.str "hi") .nil)) .nil) =
      PyVal.str "hi" :=
  (c4_received_fallback_chain).2.1 (.cons "freeText" (PyVal.str "hi") .nil)
    (PyVal.str "hi") rfl rfl

/-- Claim C9: `build_prompt` performs literal substring replacement of
`{text}` (with the resolved text value), and of `{id}`, `{route}` and
`{ts}` with the string-coerced field values, a field missing from the record
substituting the empty string (the code's `str(record.get(k, ""))` equals
the spec's "string-coerced value, else empty string", since `str("") = ""`);
`{received}` is likewise replaced with the JSON form of the `received`
field. In particular `build_prompt("{id}-{route}", {"id": 5})` returns
`"5-"`. -/
theorem c9_placeholder_replacement :
    (∀ (template : String) (record : RunGemini.PyDict) (s : String),
      RunGemini.resolve_text record = PyVal.str s →
      RunGemini.build_prompt template record =
        some (pyReplace
          (pyReplace
            (pyReplace
              (pyReplace (pyReplace template "{text}" s) "{id}" (strCoercedField record "id"))
              "{route}" (strCoercedField record "route"))
            "{ts}" (strCoercedField record "ts"))
          "{received}" (jsonDumps (record.getD "received" (PyVal.dict .nil))))) ∧
    RunGemini.build_prompt "{id}-{route}" (.cons "id" (PyVal.int 5) .nil) = some "5-" := by
  constructor
  · intro template record s hres
    have hcoerce : ∀ key, pyStr (record.getD key (PyVal.str "")) = strCoercedField record key := by
      intro key
      unfold PyEntries.getD strCoercedField
      cases record.lookup key <;> rfl
    unfold RunGemini.build_prompt
    rw [hres]
    by_cases hs : s = ""
    · subst hs
      simp [pyTruthy, hcoerce]
    · have ht : pyTruthy (PyVal.str s) = true := by simp [pyTruthy, hs]
      simp [ht, hcoerce]
  · rfl

/-- Witness for `c9_placeholder_replacement`: a record with a direct `text`
field, every other placeholder missing. -/
theorem c9_placeholder_replacement_witness :
    RunGemini.build_prompt "{text}" (.cons "text" (PyVal.str "hello") .nil) = some "hello" := by
  have h :=
    (c9_placeholder_replacement).1 "{text}" (.cons "text" (PyVal.str "hello") .nil) "hello" rfl
  rw [h]
  rfl

/-! ## Claims about the batch runner -/

/-- Claim C5: on a cloud store with ids 1,2,3 (texts "a","b","c"), a run
with `limit=2` and no `--call` appends exactly two lines, for ids 3 and 2 in
that order, each with a null response and a prompt containing the record's
text. -/
theorem c5_end_to_end (decoder : String → Option PyVal) (env : RunGemini.GenEnv) :
    RunGemini.main ⟨RunGemini.Source.cloud, 2, Option.none, false, "text-bison-001"⟩
        (some [⟨1, "a", "t1"⟩, ⟨2, "b", "t2"⟩, ⟨3, "c", "t3"⟩]) Option.none decoder env =
      some (0,
        [{ record := cloudRec 3 "c" "t3",
           prompt := "Summarize the following text:\n\nc\n\nSummary:",
           response := Option.none, error := Option.none },
         { record := cloudRec 2 "b" "t2",
           prompt := "Summarize the following text:\n\nb\n\nSummary:",
           response := Option.none, error := Option.none }]) ∧
    List.IsInfix "c".data "Summarize the following text:\n\nc\n\nSummary:".data ∧
    List.IsInfix "b".data "Summarize the following text:\n\nb\n\nSummary:".data :=
  ⟨rfl, by decide, by decide⟩

/-- Claim C10: with both database files missing, the record readers return
the empty list instead of raising, and `main` exits with status 0 having
appended nothing. -/
theorem c10_missing_db (args : RunGemini.Args) (decoder : String → Option PyVal)
    (env : RunGemini.GenEnv) (limit : Option Int) :
    RunGemini.read_cloud_strings Option.none limit = [] ∧
    RunGemini.read_inputs decoder Option.none limit = [] ∧
    RunGemini.main args Option.none Option.none decoder env = some (0, []) := by
  refine ⟨rfl, rfl, ?_⟩
  rcases args with ⟨src, lim, template, callFlag, model⟩
  cases src <;> rfl

/-- The text-resolution of `build_prompt` on a record shaped by
`read_cloud_strings` is the record's `text` value. -/
lemma resolve_text_cloud (i : Int) (t ts : String) :
    RunGemini.resolve_text (cloudRec i t ts) = PyVal.str t := rfl

/-- `build_prompt` never raises on a record shaped by `read_cloud_strings`:
the resolved text is a string. -/
lemma build_prompt_cloud_is_some (tmpl : String) (i : Int) (t ts : String) :
    ∃ p, RunGemini.build_prompt tmpl (cloudRec i t ts) = some p := by
  unfold RunGemini.build_prompt
  rw [resolve_text_cloud]
  by_cases h : t = ""
  · subst h
    exact ⟨_, rfl⟩
  · have ht : pyTruthy (PyVal.str t) = true := by simp [pyTruthy, h]
    simp only [ht, if_true]
    exact ⟨_, rfl⟩

/-- The line `main` appends for one record when `--call` is given, written
as a total function (the prompt defaulting to `""` in the impossible case
that `build_prompt` raised). -/
def batchLine (tmpl : String) (env : RunGemini.GenEnv) (model : String)
    (record : RunGemini.PyDict) : RunGemini.ResultLine :=
  match RunGemini.call_gemini env ((RunGemini.build_prompt tmpl record).getD "") model with
  | RunGemini.CallOutcome.ok m t r =>
      { record := record, prompt := (RunGemini.build_prompt tmpl record).getD "",
        response := some (m, t, r), error := Option.none }
  | RunGemini.CallOutcome.importError msg =>
      { record := record, prompt := (RunGemini.build_prompt tmpl record).getD "",
        response := Option.none, error := some msg }
  | RunGemini.CallOutcome.genericError msg =>
      { record := record, prompt := (RunGemini.build_prompt tmpl record).getD "",
        response := Option.none, error := some msg }

lemma batchLine_record (tmpl : String) (env : RunGemini.GenEnv) (model : String)
    (record : RunGemini.PyDict) : (batchLine tmpl env model record).record = record := by
  unfold batchLine
  cases RunGemini.call_gemini env ((RunGemini.build_prompt tmpl record).getD "") model <;> rfl

lemma batchLine_prompt (tmpl : String) (env : RunGemini.GenEnv) (model : String)
    (record : RunGemini.PyDict) :
    (batchLine tmpl env model record).prompt = (RunGemini.build_prompt tmpl record).getD "" := by
  unfold batchLine
  cases RunGemini.call_gemini env ((RunGemini.build_prompt tmpl record).getD "") model <;> rfl

lemma process_record_call_eq (tmpl : String) (env : RunGemini.GenEnv) (model : String)
    (record : RunGemini.PyDict) (p : String)
    (h : RunGemini.build_prompt tmpl record = some p) :
    RunGemini.process_record tmpl env true model record =
      some (batchLine tmpl env model record) := by
  unfold RunGemini.process_record batchLine
  rw [h]
  cases hc : RunGemini.call_gemini env p model <;> simp [hc]

/-- A failed generation call is recorded in the line's `error` field, the
response staying null. -/
lemma batchLine_failure (tmpl : String) (env : RunGemini.GenEnv) (model : String)
    (record : RunGemini.PyDict) :
    (∀ msg, RunGemini.call_gemini env (batchLine tmpl env model record).prompt model =
        RunGemini.CallOutcome.importError msg →
      (batchLine tmpl env model record).error = some msg ∧
      (batchLine tmpl env model record).response = Option.none) ∧
    (∀ msg, RunGemini.call_gemini env (batchLine tmpl env model record).prompt model =
        RunGemini.CallOutcome.genericError msg →
      (batchLine tmpl env model record).error = some msg ∧
      (batchLine tmpl env model record).response = Option.none) := by
  rw [batchLine_prompt]
  unfold batchLine
  cases hc : RunGemini.call_gemini env ((RunGemini.build_prompt tmpl record).getD "") model <;>
    simp [hc]

lemma mapM_eq_some_of_map {α β : Type} (f : α → Option β) (g : α → β) :
    ∀ l : List α, (∀ x ∈ l, f x = some (g x)) → l.mapM f = some (l.map g) := by
  intro l
  induction l with
  | nil => intro _; rfl
  | cons x xs ih =>
    intro h
    rw [List.map_cons, List.mapM_cons, h x (by simp), ih (fun y hy => h y (by simp [hy]))]
    rfl

/-- Claim C8: in a `--call` run over the cloud source, `main` still returns
normally with one appended line per record read (in order), and any line
whose generation call failed — with the "unavailable" `ImportError` or any
other exception — carries the failure message in its `error` field with a
null response; no failure aborts the batch. -/
theorem c8_per_record_errors (rows : List CloudRow) (limit : Int) (template : Option String)
    (model : String) (env : RunGemini.GenEnv) (decoder : String → Option PyVal)
    (inputsDB : Option (List RunGemini.InputsSqliteRow)) :
    ∃ lines : List RunGemini.ResultLine,
      RunGemini.main ⟨RunGemini.Source.cloud, limit, template, true, model⟩ (some rows)
          inputsDB decoder env =
        some (0, lines) ∧
      lines.map (fun line => line.record) =
        RunGemini.read_cloud_strings (some rows) (some limit) ∧
      ∀ line ∈ lines,
        (∀ msg, RunGemini.call_gemini env line.prompt model =
            RunGemini.CallOutcome.importError msg →
          line.error = some msg ∧ line.response = Option.none) ∧
        (∀ msg, RunGemini.call_gemini env line.prompt model =
            RunGemini.CallOutcome.genericError msg →
          line.error = some msg ∧ line.response = Option.none) := by
  set tmpl := RunGemini.resolveTemplate template with htmpl
  set records := RunGemini.read_cloud_strings (some rows) (some limit) with hrecords
  have hshape : ∀ rec ∈ records, ∃ i t ts, rec = cloudRec i t ts := by
    intro rec hrec
    rw [hrecords] at hrec
    unfold RunGemini.read_cloud_strings at hrec
    simp only [List.mem_map] at hrec
    obtain ⟨r, _, hr⟩ := hrec
    exact ⟨r.id, r.text, r.created_at, hr.symm⟩
  have hproc : ∀ rec ∈ records,
      RunGemini.process_record tmpl env true model rec =
        some (batchLine tmpl env model rec) := by
    intro rec hrec
    obtain ⟨i, t, ts, rfl⟩ := hshape rec hrec
    obtain ⟨p, hp⟩ := build_prompt_cloud_is_some tmpl i t ts
    exact process_record_call_eq tmpl env model _ p hp
  refine ⟨records.map (batchLine tmpl env model), ?_, ?_, ?_⟩
  · show (if records.isEmpty then some ((0 : Int), ([] : List RunGemini.ResultLine))
        else (records.mapM (RunGemini.process_record tmpl env true model)).map
          fun lines => (0, lines)) =
      some (0, records.map (batchLine tmpl env model))
    by_cases hempty : records.isEmpty
    · have hnil : records = [] := List.isEmpty_iff.mp hempty
      rw [if_pos hempty, hnil]
      rfl
    · rw [if_neg hempty, mapM_eq_some_of_map _ _ records hproc]
      rfl
  · rw [List.map_map]
    have hco : ((fun line => RunGemini.ResultLine.record line) ∘ batchLine tmpl env model) = id := by
      funext rec
      exact batchLine_record tmpl env model rec
    rw [hco, List.map_id]
  · intro line hline
    simp only [List.mem_map] at hline
    obtain ⟨rec, hrec, rfl⟩ := hline
    exact batchLine_failure tmpl env model rec

/-- Witness for `c8_per_record_errors`: a one-record store under an
environment with no importable client; the single appended line records the
"unavailable" error. -/
theorem c8_per_record_errors_witness :
    (∃ lines : List RunGemini.ResultLine,
      RunGemini.main ⟨RunGemini.Source.cloud, 1, Option.none, true, "m"⟩
          (some [⟨1, "a", "t"⟩]) Option.none (fun _ => Option.none) noClientEnv =
        some (0, lines) ∧
      lines.map (fun line => line.record) =
        RunGemini.read_cloud_strings (some [⟨1, "a", "t"⟩]) (some 1) ∧
      ∀ line ∈ lines,
        (∀ msg, RunGemini.call_gemini noClientEnv line.prompt "m" =
            RunGemini.CallOutcome.importError msg →
          line.error = some msg ∧ line.response = Option.none) ∧
        (∀ msg, RunGemini.call_gemini noClientEnv line.prompt "m" =
            RunGemini.CallOutcome.genericError msg →
          line.error = some msg ∧ line.response = Option.none)) ∧
    RunGemini.main ⟨RunGemini.Source.cloud, 1, Option.none, true, "m"⟩
        (some [⟨1, "a", "t"⟩]) Option.none (fun _ => Option.none) noClientEnv =
      some (0,
        [{ record := cloudRec 1 "a" "t",
           prompt := "Summarize the following text:\n\na\n\nSummary:",
           response := Option.none, error := some RunGemini.unavailableMsg }]) :=
  ⟨c8_per_record_errors [⟨1, "a", "t"⟩] 1 Option.none "m" noClientEnv
      (fun _ => Option.none) Option.none,
    rfl⟩
